import Mathlib

/-!
Verification of `create_package.py`, the Chrome-extension packager.

The script is a linear pipeline: check the build directory, read the
manifest, derive the archive name, delete a stale archive, walk the build
tree filtering files through `is_essential`, write the archive, check the
100 MB limit and list the contents.  We embed it as a pure function from
the externally observable inputs of one run (existence of the build
directory, the parsed manifest file, the walked relative paths in walk
order, existence of a prior archive, the byte size of the produced
archive) to the externally observable outputs (the returned boolean, the
filesystem effects, the archive entry list and the reported listing).

Python strings are modelled as lists of characters (`PyStr`) so that
every string operation the script performs (substring test, last path
component, lexicographic sorting) is structural recursion that the
kernel can evaluate.
-/

/-- A Python string: a list of Unicode characters. -/
abbrev PyStr := List Char

/-- Lexicographic `<=` on strings by code point, as Python compares `str`. -/
def strLe : PyStr → PyStr → Bool
  | [], _ => true
  | _ :: _, [] => false
  | a :: as, b :: bs => if a < b then true else if a = b then strLe as bs else false

/-- Does the string begin with the given pattern? -/
def startsWith : PyStr → PyStr → Bool
  | _, [] => true
  | [], _ :: _ => false
  | a :: as, b :: bs => a = b && startsWith as bs

/-- Python's `pat in s` substring test. -/
def containsSub : PyStr → PyStr → Bool
  | [], pat => pat.isEmpty
  | s@(_ :: rest), pat => startsWith s pat || containsSub rest pat

/-- `Path(p).name`: the component after the last slash.  The walker only
produces paths without trailing slashes, where this agrees with pathlib. -/
def fileName (p : PyStr) : PyStr :=
  (p.reverse.takeWhile (fun c => c ≠ '/')).reverse

/-- Insert into a `strLe`-sorted list, keeping equal elements stable. -/
def insertSorted (x : PyStr) : List PyStr → List PyStr
  | [] => [x]
  | y :: ys => if strLe x y then x :: y :: ys else y :: insertSorted x ys

/-- Python's `sorted` on a list of strings (a stable insertion sort). -/
def sortStrings : List PyStr → List PyStr
  | [] => []
  | x :: xs => insertSorted x (sortStrings xs)

/-- `str(Path(dir) / rel)`: join with a single slash. -/
def joinPath (dir rel : PyStr) : PyStr := dir ++ '/' :: rel

/-- The fixed `essential_files` set of `create_package.py` (lines 46-51). -/
def essential_files : List PyStr :=
  ["manifest.json".toList, "chatgpt-controller.js".toList,
   "service-worker.js".toList, "popup.html".toList]

/-- `is_essential` (lines 53-56): the filename is in the essential set, or
the string `"assets/"` occurs in `str(file_path)` — the FULL walked path,
build-directory prefix included, not the relative path. -/
def is_essential (file_path : PyStr) : Bool :=
  essential_files.contains (fileName file_path) ||
    containsSub file_path "assets/".toList

/-- A Python runtime error relevant to this script. -/
inductive PyErr where
  | nameError : PyStr → PyErr
deriving DecidableEq

/-- The global name `exclude_patterns` is bound nowhere in the module, so
looking it up yields no value. -/
def exclude_patterns : Option (List PyStr) := none

/-- `should_exclude` (lines 58-64): loops over `exclude_patterns`, which is
undefined, so any call raises `NameError` before testing anything. -/
def should_exclude (file_path : PyStr) : Except PyErr Bool :=
  match exclude_patterns with
  | none => Except.error (PyErr.nameError "exclude_patterns".toList)
  | some pats =>
      Except.ok (pats.any (fun pat => containsSub (file_path.map Char.toLower) pat))

/-- The fields of `manifest.json` the script reads (`version`, `name`),
each possibly absent. -/
structure Manifest where
  version : Option PyStr
  name : Option PyStr
deriving DecidableEq

/-- The externally observable inputs of one run. -/
structure RunInput where
  /-- Does `build_dir` exist (line 16)? -/
  buildDirExists : Bool
  /-- `str(build_dir)`, the absolute path of the build directory. -/
  buildDirPath : PyStr
  /-- `manifest.json`: `none` if absent (line 22), `Except.error` if
  unreadable or unparseable (lines 26-34), `Except.ok` with the parsed
  fields otherwise. -/
  manifestFile : Option (Except PyStr Manifest)
  /-- The relative paths of the files under `build_dir`, in the order
  `os.walk` encounters them (lines 72-74). -/
  buildFiles : List PyStr
  /-- Does a file already exist at `package_path` (line 41)? -/
  priorArchiveExists : Bool
  /-- The byte size of the archive the run writes (line 99). -/
  archiveSizeBytes : Nat

/-- The externally observable outcome of one run. -/
structure RunResult where
  /-- The boolean `create_extension_package` returns. -/
  success : Bool
  /-- Was a pre-existing archive unlinked (line 42)? -/
  deletedPrior : Bool
  /-- Was a new archive file written (line 68)? -/
  archiveCreated : Bool
  /-- `package_name`, once computed (line 37). -/
  packageName : Option PyStr
  /-- The archive entry names, in the order written (line 87). -/
  entries : List PyStr
  /-- `file_count` (line 88). -/
  fileCount : Nat
  /-- The entry names printed by the contents listing (line 115). -/
  displayed : List PyStr
  /-- The `... and N more files` count, when printed (line 118). -/
  remainder : Option Nat
deriving DecidableEq

/-- The outcome of a run that returns `False` before touching the
archive path. -/
def failResult : RunResult :=
  { success := false, deletedPrior := false, archiveCreated := false,
    packageName := none, entries := [], fileCount := 0,
    displayed := [], remainder := none }

/-- `package_name` (line 37): `f"chatgpt-extension-v{version}.zip"` with
`version = manifest.get('version', '1.0.0')` (line 29). -/
def packageNameOf (m : Manifest) : PyStr :=
  "chatgpt-extension-v".toList ++ m.version.getD "1.0.0".toList ++ ".zip".toList

/-- The files the walk adds to the archive (lines 72-88): the walked
relative paths whose full path passes `is_essential`, in walk order. -/
def includedEntries (inp : RunInput) : List PyStr :=
  inp.buildFiles.filter (fun rel => is_essential (joinPath inp.buildDirPath rel))

/-- `size_mb > 100` (line 104): `size_mb` is the byte size divided by
`2^20`, a division by a power of two that is exact in double precision
for any realistic size, so the test is exactly `bytes > 100 * 2^20`. -/
def sizeLimitExceeded (bytes : Nat) : Bool := 100 * 1024 * 1024 < bytes

/-- `create_extension_package` (lines 9-132) as a function from the
run's inputs to its observable outcome, mirroring the source line by
line: directory check, manifest check and parse, archive naming, stale
archive removal, walk-and-filter, size check, contents listing. -/
def create_extension_package (inp : RunInput) : RunResult :=
  if inp.buildDirExists then
    match inp.manifestFile with
    | none => failResult
    | some (Except.error _) => failResult
    | some (Except.ok manifest) =>
        let package_name := packageNameOf manifest
        let deleted := inp.priorArchiveExists
        let entries := includedEntries inp
        let file_count := entries.length
        if sizeLimitExceeded inp.archiveSizeBytes then
          { success := false, deletedPrior := deleted, archiveCreated := true,
            packageName := some package_name, entries := entries,
            fileCount := file_count, displayed := [], remainder := none }
        else
          { success := true, deletedPrior := deleted, archiveCreated := true,
            packageName := some package_name, entries := entries,
            fileCount := file_count,
            displayed := sortStrings (entries.take 20),
            remainder := if 20 < entries.length
              then some (entries.length - 20) else none }
  else failResult

/-- The process exit code (line 136): `0` on `True`, `1` on `False`. -/
def mainExitCode (inp : RunInput) : Nat :=
  if (create_extension_package inp).success then 0 else 1

/-- Modelled from the spec: the inclusion predicate as the spec states
it, judged on the path RELATIVE to the build directory (the filename is
essential, or `assets/` occurs in the relative path).  Kept for
comparison with `is_essential`, which the source applies to the full
path. -/
def spec_included (rel : PyStr) : Bool :=
  essential_files.contains (fileName rel) || containsSub rel "assets/".toList

/-! ## Order-theoretic facts about the string comparison and the sort -/

theorem strLe_total : ∀ a b : PyStr, strLe a b = true ∨ strLe b a = true
  | [], _ => Or.inl rfl
  | _ :: _, [] => Or.inr rfl
  | a :: as, b :: bs => by
    rcases lt_trichotomy a b with h | h | h
    · exact Or.inl (by simp [strLe, h])
    · subst h
      rcases strLe_total as bs with ih | ih
      · exact Or.inl (by simp [strLe, ih])
      · exact Or.inr (by simp [strLe, ih])
    · exact Or.inr (by simp [strLe, h])

theorem strLe_trans : ∀ a b c : PyStr,
    strLe a b = true → strLe b c = true → strLe a c = true
  | [], _, _, _, _ => rfl
  | _ :: _, [], _, hab, _ => by simp [strLe] at hab
  | _ :: _, _ :: _, [], _, hbc => by simp [strLe] at hbc
  | a :: as, b :: bs, c :: cs, hab, hbc => by
    simp only [strLe] at hab hbc ⊢
    by_cases h1 : a < b
    · by_cases h2 : b < c
      · simp [lt_trans h1 h2]
      · simp only [if_neg h2] at hbc
        by_cases h3 : b = c
        · subst h3; simp [h1]
        · simp [h3] at hbc
    · simp only [if_neg h1] at hab
      by_cases h3 : a = b
      · subst h3
        simp only [if_neg h1, if_pos rfl] at hab
        by_cases h2 : a < c
        · simp [h2]
        · simp only [if_neg h2] at hbc ⊢
          by_cases h4 : a = c
          · subst h4
            simp only [if_pos rfl] at hbc ⊢
            exact strLe_trans as bs cs hab hbc
          · simp [h4] at hbc
      · simp [h3] at hab

theorem mem_insertSorted (x z : PyStr) :
    ∀ l : List PyStr, z ∈ insertSorted x l ↔ z = x ∨ z ∈ l
  | [] => by simp [insertSorted]
  | y :: ys => by
    by_cases h : strLe x y
    · simp [insertSorted, h]
    · simp only [insertSorted, if_neg h, List.mem_cons, mem_insertSorted x z ys]
      tauto

theorem pairwise_insertSorted (x : PyStr) :
    ∀ l : List PyStr, l.Pairwise (fun a b => strLe a b = true) →
      (insertSorted x l).Pairwise (fun a b => strLe a b = true)
  | [], _ => by simp [insertSorted]
  | y :: ys, h => by
    rcases List.pairwise_cons.mp h with ⟨hy, hys⟩
    by_cases hxy : strLe x y
    · rw [insertSorted, if_pos hxy]
      refine List.pairwise_cons.mpr ⟨?_, h⟩
      intro z hz
      rcases List.mem_cons.mp hz with rfl | hz
      · exact hxy
      · exact strLe_trans x y z hxy (hy z hz)
    · rw [insertSorted, if_neg hxy]
      refine List.pairwise_cons.mpr ⟨?_, pairwise_insertSorted x ys hys⟩
      intro z hz
      rcases (mem_insertSorted x z ys).mp hz with rfl | hz
      · rcases strLe_total z y with h1 | h1
        · exact absurd h1 hxy
        · exact h1
      · exact hy z hz

theorem pairwise_sortStrings :
    ∀ l : List PyStr, (sortStrings l).Pairwise (fun a b => strLe a b = true)
  | [] => List.Pairwise.nil
  | x :: xs => pairwise_insertSorted x (sortStrings xs) (pairwise_sortStrings xs)

/-! ## Shape of a run that reaches the archive-writing step -/

theorem run_shape (inp : RunInput) (m : Manifest)
    (hdir : inp.buildDirExists = true)
    (hm : inp.manifestFile = some (Except.ok m)) :
    create_extension_package inp =
      if sizeLimitExceeded inp.archiveSizeBytes then
        { success := false, deletedPrior := inp.priorArchiveExists, archiveCreated := true,
          packageName := some (packageNameOf m), entries := includedEntries inp,
          fileCount := (includedEntries inp).length, displayed := [], remainder := none }
      else
        { success := true, deletedPrior := inp.priorArchiveExists, archiveCreated := true,
          packageName := some (packageNameOf m), entries := includedEntries inp,
          fileCount := (includedEntries inp).length,
          displayed := sortStrings ((includedEntries inp).take 20),
          remainder := if 20 < (includedEntries inp).length
            then some ((includedEntries inp).length - 20) else none } := by
  simp only [create_extension_package, hdir, if_true, hm]

theorem entries_run (inp : RunInput) (m : Manifest)
    (hdir : inp.buildDirExists = true)
    (hm : inp.manifestFile = some (Except.ok m)) :
    (create_extension_package inp).entries = includedEntries inp := by
  rw [run_shape inp m hdir hm, apply_ite RunResult.entries]
  split <;> rfl

theorem fileCount_run (inp : RunInput) (m : Manifest)
    (hdir : inp.buildDirExists = true)
    (hm : inp.manifestFile = some (Except.ok m)) :
    (create_extension_package inp).fileCount = (includedEntries inp).length := by
  rw [run_shape inp m hdir hm, apply_ite RunResult.fileCount]
  split <;> rfl

theorem deletedPrior_run (inp : RunInput) (m : Manifest)
    (hdir : inp.buildDirExists = true)
    (hm : inp.manifestFile = some (Except.ok m)) :
    (create_extension_package inp).deletedPrior = inp.priorArchiveExists := by
  rw [run_shape inp m hdir hm, apply_ite RunResult.deletedPrior]
  split <;> rfl

theorem packageName_run (inp : RunInput) (m : Manifest)
    (hdir : inp.buildDirExists = true)
    (hm : inp.manifestFile = some (Except.ok m)) :
    (create_extension_package inp).packageName = some (packageNameOf m) := by
  rw [run_shape inp m hdir hm, apply_ite RunResult.packageName]
  split <;> rfl

/-! ## Concrete inputs used by counterexamples and witnesses -/

/-- A manifest with the fields of the spec's worked example. -/
def wManifest : Manifest :=
  { version := some "2.1.0".toList, name := some "ChatGPT Extension".toList }

/-- A small generic run: a build tree with one essential file, one stray
file and one asset, a pre-existing archive, a 4 KB result. -/
def wInput : RunInput :=
  { buildDirExists := true, buildDirPath := "/repo/build".toList,
    manifestFile := some (Except.ok wManifest),
    buildFiles := List.map String.toList
      ["manifest.json", "notes.txt", "assets/icon.png"],
    priorArchiveExists := true, archiveSizeBytes := 4096 }

/-- A run whose build directory happens to live under a directory named
`assets`: the walked full paths all contain the substring `assets/`. -/
def c1CexInput : RunInput :=
  { buildDirExists := true, buildDirPath := "/home/user/assets/build".toList,
    manifestFile := some (Except.ok { version := some "1.0.0".toList, name := none }),
    buildFiles := ["README.md".toList],
    priorArchiveExists := false, archiveSizeBytes := 5000 }

/-- Claim C1, counterexample: the inclusion test is applied to the FULL
walked path, not the path relative to the build directory.  With the
build directory at `/home/user/assets/build`, the file `README.md` — whose
filename is not essential and whose relative path contains no `assets/` —
is nevertheless written into the archive, because the full path
`/home/user/assets/build/README.md` contains the substring `assets/`.
`spec_included` is the predicate the claim describes, judged on the
relative path; it rejects the file the run includes. -/
theorem c1_relative_path_counterexample :
    (create_extension_package c1CexInput).entries = ["README.md".toList] ∧
      spec_included "README.md".toList = false := by decide

/-- Claim C1 (amended): in every run that reaches the walk, a walked file
is included in the archive if and only if it occurs in the walk and
either its filename exactly equals one of the four essential filenames or
its FULL path — the build-directory path joined with the relative path —
contains `assets/` as a substring; every other file is excluded. -/
theorem c1_inclusion_iff (inp : RunInput) (m : Manifest)
    (hdir : inp.buildDirExists = true)
    (hm : inp.manifestFile = some (Except.ok m)) (rel : PyStr) :
    rel ∈ (create_extension_package inp).entries ↔
      rel ∈ inp.buildFiles ∧
        (fileName (joinPath inp.buildDirPath rel) ∈ essential_files ∨
          containsSub (joinPath inp.buildDirPath rel) "assets/".toList = true) := by
  rw [entries_run inp m hdir hm]
  simp [includedEntries, List.mem_filter, is_essential, List.contains, List.elem_iff]

/-- Witness for `c1_inclusion_iff` at a concrete run and file. -/
theorem c1_inclusion_iff_witness :
    "manifest.json".toList ∈ (create_extension_package wInput).entries ↔
      "manifest.json".toList ∈ wInput.buildFiles ∧
        (fileName (joinPath wInput.buildDirPath "manifest.json".toList) ∈ essential_files ∨
          containsSub (joinPath wInput.buildDirPath "manifest.json".toList)
            "assets/".toList = true) :=
  c1_inclusion_iff wInput wManifest rfl rfl "manifest.json".toList

/-- The build tree of the spec's worked example, in walk order, with the
archive size and prior-archive state left open. -/
def c2Input (size : Nat) (prior : Bool) : RunInput :=
  { buildDirExists := true, buildDirPath := "/repo/build".toList,
    manifestFile := some (Except.ok { version := some "2.1.0".toList, name := none }),
    buildFiles := List.map String.toList
      ["manifest.json", "chatgpt-controller.js", "service-worker.js",
       "popup.html", "README.md", "assets/icon.png"],
    priorArchiveExists := prior, archiveSizeBytes := size }

/-- Claim C2 (confirmed): on the spec's worked example — a build tree
with `manifest.json` (version `2.1.0`), the three other essential files,
`README.md` and `assets/icon.png` — the archive is named
`chatgpt-extension-v2.1.0.zip`, its entries are exactly all the files
except `README.md` under their relative paths, and the process exits
with code `0` (the produced archive being within the 100 MB limit). -/
theorem c2_worked_example (size : Nat) (prior : Bool) (h : size ≤ 104857600) :
    (create_extension_package (c2Input size prior)).packageName =
        some "chatgpt-extension-v2.1.0.zip".toList ∧
      (create_extension_package (c2Input size prior)).entries =
        List.map String.toList
          ["manifest.json", "chatgpt-controller.js", "service-worker.js",
           "popup.html", "assets/icon.png"] ∧
      mainExitCode (c2Input size prior) = 0 := by
  have hs : sizeLimitExceeded (c2Input size prior).archiveSizeBytes = false := by
    simp only [c2Input, sizeLimitExceeded, decide_eq_false_iff_not, not_lt]
    exact h
  have h1 := run_shape (c2Input size prior) ⟨some "2.1.0".toList, none⟩ rfl rfl
  rw [hs] at h1
  simp only [Bool.false_eq_true, if_false] at h1
  refine ⟨?_, ?_, ?_⟩
  · rw [h1]; rfl
  · rw [h1]; rfl
  · rw [mainExitCode, h1]; rfl

/-- Witness for `c2_worked_example` at a concrete size and prior state. -/
theorem c2_worked_example_witness :
    (create_extension_package (c2Input 4096 false)).packageName =
        some "chatgpt-extension-v2.1.0.zip".toList ∧
      (create_extension_package (c2Input 4096 false)).entries =
        List.map String.toList
          ["manifest.json", "chatgpt-controller.js", "service-worker.js",
           "popup.html", "assets/icon.png"] ∧
      mainExitCode (c2Input 4096 false) = 0 :=
  c2_worked_example 4096 false (by decide)

/-- Claim C3 (confirmed): in every run that reaches the size check — the
build directory and a readable manifest exist, so an archive is produced
— a byte size over the 100 MB threshold makes the run fail (returns
`False`, exit code `1`) even though the archive was written, and a byte
size within the threshold makes it report success (exit code `0`). -/
theorem c3_size_limit_gate (inp : RunInput) (m : Manifest)
    (hdir : inp.buildDirExists = true)
    (hm : inp.manifestFile = some (Except.ok m)) :
    (104857600 < inp.archiveSizeBytes →
        (create_extension_package inp).success = false ∧
          (create_extension_package inp).archiveCreated = true ∧
          mainExitCode inp = 1) ∧
      (inp.archiveSizeBytes ≤ 104857600 →
        (create_extension_package inp).success = true ∧
          (create_extension_package inp).archiveCreated = true ∧
          mainExitCode inp = 0) := by
  have h1 := run_shape inp m hdir hm
  constructor
  · intro h
    have hs : sizeLimitExceeded inp.archiveSizeBytes = true := by
      simp only [sizeLimitExceeded, decide_eq_true_eq]
      exact h
    rw [hs] at h1
    simp only [if_true] at h1
    exact ⟨by rw [h1], by rw [h1], by rw [mainExitCode, h1]; rfl⟩
  · intro h
    have hs : sizeLimitExceeded inp.archiveSizeBytes = false := by
      simp only [sizeLimitExceeded, decide_eq_false_iff_not, not_lt]
      exact h
    rw [hs] at h1
    simp only [Bool.false_eq_true, if_false] at h1
    exact ⟨by rw [h1], by rw [h1], by rw [mainExitCode, h1]; rfl⟩

/-- A run identical to `wInput` except that the archive comes out at
200 MB. -/
def c3Input : RunInput :=
  { buildDirExists := true, buildDirPath := "/repo/build".toList,
    manifestFile := some (Except.ok wManifest),
    buildFiles := List.map String.toList
      ["manifest.json", "notes.txt", "assets/icon.png"],
    priorArchiveExists := true, archiveSizeBytes := 209715200 }

/-- Witness for `c3_size_limit_gate` at a 200 MB archive. -/
theorem c3_size_limit_gate_witness :
    (create_extension_package c3Input).success = false ∧
      (create_extension_package c3Input).archiveCreated = true ∧
      mainExitCode c3Input = 1 :=
  (c3_size_limit_gate c3Input wManifest rfl rfl).1 (by decide)

/-- A build tree of 21 included asset files whose walk order puts the
lexicographically largest name first. -/
def c4Input : RunInput :=
  { buildDirExists := true, buildDirPath := "/repo/build".toList,
    manifestFile := some (Except.ok { version := some "1.0.0".toList, name := none }),
    buildFiles := List.map String.toList
      ["assets/zzz.png",
       "assets/f01.png", "assets/f02.png", "assets/f03.png", "assets/f04.png",
       "assets/f05.png", "assets/f06.png", "assets/f07.png", "assets/f08.png",
       "assets/f09.png", "assets/f10.png", "assets/f11.png", "assets/f12.png",
       "assets/f13.png", "assets/f14.png", "assets/f15.png", "assets/f16.png",
       "assets/f17.png", "assets/f18.png", "assets/f19.png", "assets/f20.png"],
    priorArchiveExists := false, archiveSizeBytes := 2048 }

/-- Claim C4, counterexample: the listing prints `sorted(files[:20])` —
the first 20 entries of the archive's name list, then sorted — not the
first 20 names of the sorted list.  On a 21-entry archive whose walk
order begins with `assets/zzz.png`, the displayed names include
`assets/zzz.png` and omit `assets/f20.png`, while the first 20 names of
the sorted list are `assets/f01.png` … `assets/f20.png`. -/
theorem c4_sorted_take_counterexample :
    (create_extension_package c4Input).displayed ≠
      (sortStrings ((create_extension_package c4Input).entries)).take 20 := by decide

/-- Claim C4 (amended): on a successful run within the size threshold,
the displayed names are the first 20 entries of the archive's name list
(in the order written), shown in sorted order — so at most 20 names, and
they are sorted among themselves — and when more than 20 entries exist
the count of the remainder is reported. -/
theorem c4_listing (inp : RunInput) (m : Manifest)
    (hdir : inp.buildDirExists = true)
    (hm : inp.manifestFile = some (Except.ok m))
    (hsize : inp.archiveSizeBytes ≤ 104857600) :
    (create_extension_package inp).displayed =
        sortStrings (((create_extension_package inp).entries).take 20) ∧
      ((create_extension_package inp).displayed).Pairwise
        (fun a b => strLe a b = true) ∧
      (create_extension_package inp).remainder =
        (if 20 < ((create_extension_package inp).entries).length
          then some (((create_extension_package inp).entries).length - 20)
          else none) := by
  have h1 := run_shape inp m hdir hm
  have hs : sizeLimitExceeded inp.archiveSizeBytes = false := by
    simp only [sizeLimitExceeded, decide_eq_false_iff_not, not_lt]
    exact hsize
  rw [hs] at h1
  simp only [Bool.false_eq_true, if_false] at h1
  refine ⟨by rw [h1], ?_, by rw [h1]⟩
  rw [h1]
  exact pairwise_sortStrings _

/-- Witness for `c4_listing` at a concrete run. -/
theorem c4_listing_witness :
    (create_extension_package wInput).displayed =
        sortStrings (((create_extension_package wInput).entries).take 20) ∧
      ((create_extension_package wInput).displayed).Pairwise
        (fun a b => strLe a b = true) ∧
      (create_extension_package wInput).remainder =
        (if 20 < ((create_extension_package wInput).entries).length
          then some (((create_extension_package wInput).entries).length - 20)
          else none) :=
  c4_listing wInput wManifest rfl rfl (by decide)

/-- Claim C5 (confirmed): when the build directory is absent the run
returns failure (exit code `1`) and performs no filesystem writes: no
archive is created and no pre-existing archive is deleted. -/
theorem c5_missing_build_dir (inp : RunInput)
    (h : inp.buildDirExists = false) :
    (create_extension_package inp).success = false ∧
      (create_extension_package inp).archiveCreated = false ∧
      (create_extension_package inp).deletedPrior = false ∧
      mainExitCode inp = 1 := by
  have h1 : create_extension_package inp = failResult := by
    rw [create_extension_package, h]
    simp
  exact ⟨by rw [h1]; rfl, by rw [h1]; rfl, by rw [h1]; rfl,
    by rw [mainExitCode, h1]; rfl⟩

/-- A run whose build directory is absent, with a stale archive present. -/
def c5Input : RunInput :=
  { buildDirExists := false, buildDirPath := "/repo/build".toList,
    manifestFile := none, buildFiles := [],
    priorArchiveExists := true, archiveSizeBytes := 0 }

/-- Witness for `c5_missing_build_dir` at a concrete run. -/
theorem c5_missing_build_dir_witness :
    (create_extension_package c5Input).success = false ∧
      (create_extension_package c5Input).archiveCreated = false ∧
      (create_extension_package c5Input).deletedPrior = false ∧
      mainExitCode c5Input = 1 :=
  c5_missing_build_dir c5Input rfl

/-- Claim C6 (confirmed): when `manifest.json` is absent, or present but
unreadable or unparseable, the run returns failure (exit code `1`)
before any archive is created and before any pre-existing archive is
deleted. -/
theorem c6_manifest_failure (inp : RunInput)
    (h : inp.manifestFile = none ∨
      ∃ e, inp.manifestFile = some (Except.error e)) :
    (create_extension_package inp).success = false ∧
      (create_extension_package inp).archiveCreated = false ∧
      (create_extension_package inp).deletedPrior = false ∧
      mainExitCode inp = 1 := by
  have h1 : create_extension_package inp = failResult := by
    cases hd : inp.buildDirExists with
    | false => rw [create_extension_package, hd]; simp
    | true =>
      rcases h with hn | ⟨e, he⟩
      · rw [create_extension_package, hd, hn]; simp
      · rw [create_extension_package, hd, he]; simp
  exact ⟨by rw [h1]; rfl, by rw [h1]; rfl, by rw [h1]; rfl,
    by rw [mainExitCode, h1]; rfl⟩

/-- A run whose build directory exists but holds no `manifest.json`. -/
def c6Input : RunInput :=
  { buildDirExists := true, buildDirPath := "/repo/build".toList,
    manifestFile := none,
    buildFiles := ["popup.html".toList],
    priorArchiveExists := true, archiveSizeBytes := 0 }

/-- Witness for `c6_manifest_failure` at a concrete run. -/
theorem c6_manifest_failure_witness :
    (create_extension_package c6Input).success = false ∧
      (create_extension_package c6Input).archiveCreated = false ∧
      (create_extension_package c6Input).deletedPrior = false ∧
      mainExitCode c6Input = 1 :=
  c6_manifest_failure c6Input (Or.inl rfl)

/-- Claim C7 (confirmed): in every run that reads a manifest, the archive
name is `chatgpt-extension-v{version}.zip` for the manifest's `version`
field, and `chatgpt-extension-v1.0.0.zip` when that field is absent. -/
theorem c7_archive_name (inp : RunInput) (m : Manifest)
    (hdir : inp.buildDirExists = true)
    (hm : inp.manifestFile = some (Except.ok m)) :
    (create_extension_package inp).packageName =
        some ("chatgpt-extension-v".toList ++
          m.version.getD "1.0.0".toList ++ ".zip".toList) ∧
      (m.version = none →
        (create_extension_package inp).packageName =
          some "chatgpt-extension-v1.0.0.zip".toList) := by
  refine ⟨packageName_run inp m hdir hm, fun hv => ?_⟩
  rw [packageName_run inp m hdir hm, packageNameOf, hv]
  rfl

/-- A run whose manifest lacks the `version` field. -/
def c7Input : RunInput :=
  { buildDirExists := true, buildDirPath := "/repo/build".toList,
    manifestFile := some (Except.ok { version := none, name := none }),
    buildFiles := ["manifest.json".toList],
    priorArchiveExists := false, archiveSizeBytes := 77 }

/-- Witness for `c7_archive_name` at a version-less manifest. -/
theorem c7_archive_name_witness :
    (create_extension_package c7Input).packageName =
      some "chatgpt-extension-v1.0.0.zip".toList :=
  (c7_archive_name c7Input { version := none, name := none } rfl rfl).2 rfl

/-- Claim C8 (confirmed): in every run that reaches the archive-writing
step, a file already at the target archive path is deleted before the
new archive is written, and the new archive's entries are exactly the
allow-listed walked files — nothing from a prior archive survives. -/
theorem c8_stale_archive_removed (inp : RunInput) (m : Manifest)
    (hdir : inp.buildDirExists = true)
    (hm : inp.manifestFile = some (Except.ok m)) :
    (create_extension_package inp).deletedPrior = inp.priorArchiveExists ∧
      (create_extension_package inp).entries = includedEntries inp :=
  ⟨deletedPrior_run inp m hdir hm, entries_run inp m hdir hm⟩

/-- Witness for `c8_stale_archive_removed` at a run with a stale archive. -/
theorem c8_stale_archive_removed_witness :
    (create_extension_package wInput).deletedPrior = wInput.priorArchiveExists ∧
      (create_extension_package wInput).entries = includedEntries wInput :=
  c8_stale_archive_removed wInput wManifest rfl rfl

/-- Claim C9 (confirmed): two runs on identical inputs — the same build
tree in the same walk order, the same build-directory path and the same
manifest — produce the same archive entry-name list and report the same
included-file count, even if the runs differ in prior-archive state or
in the size the archive happens to come out at. -/
theorem c9_selection_deterministic (a b : RunInput)
    (hdir : a.buildDirExists = b.buildDirExists)
    (hpath : a.buildDirPath = b.buildDirPath)
    (hman : a.manifestFile = b.manifestFile)
    (hfiles : a.buildFiles = b.buildFiles) :
    (create_extension_package a).entries = (create_extension_package b).entries ∧
      (create_extension_package a).fileCount =
        (create_extension_package b).fileCount := by
  have hinc : includedEntries a = includedEntries b := by
    rw [includedEntries, includedEntries, hpath, hfiles]
  cases hd : a.buildDirExists with
  | false =>
    have hd' : b.buildDirExists = false := by rw [← hdir]; exact hd
    have e1 : create_extension_package a = failResult := by
      rw [create_extension_package, hd]; simp
    have e2 : create_extension_package b = failResult := by
      rw [create_extension_package, hd']; simp
    rw [e1, e2]
    exact ⟨rfl, rfl⟩
  | true =>
    have hd' : b.buildDirExists = true := by rw [← hdir]; exact hd
    cases hma : a.manifestFile with
    | none =>
      have hmb : b.manifestFile = none := by rw [← hman]; exact hma
      have e1 : create_extension_package a = failResult := by
        rw [create_extension_package, hd, hma]; simp
      have e2 : create_extension_package b = failResult := by
        rw [create_extension_package, hd', hmb]; simp
      rw [e1, e2]
      exact ⟨rfl, rfl⟩
    | some ex =>
      have hmb : b.manifestFile = some ex := by rw [← hman]; exact hma
      cases ex with
      | error e =>
        have e1 : create_extension_package a = failResult := by
          rw [create_extension_package, hd, hma]; simp
        have e2 : create_extension_package b = failResult := by
          rw [create_extension_package, hd', hmb]; simp
        rw [e1, e2]
        exact ⟨rfl, rfl⟩
      | ok m =>
        refine ⟨?_, ?_⟩
        · rw [entries_run a m hd hma, entries_run b m hd' hmb, hinc]
        · rw [fileCount_run a m hd hma, fileCount_run b m hd' hmb, hinc]

/-- A second run on the same build tree as `wInput`, differing only in
prior-archive state and resulting archive size. -/
def c9Input : RunInput :=
  { buildDirExists := true, buildDirPath := "/repo/build".toList,
    manifestFile := some (Except.ok wManifest),
    buildFiles := List.map String.toList
      ["manifest.json", "notes.txt", "assets/icon.png"],
    priorArchiveExists := false, archiveSizeBytes := 999999999 }

/-- Witness for `c9_selection_deterministic` on two such runs. -/
theorem c9_selection_deterministic_witness :
    (create_extension_package wInput).entries =
        (create_extension_package c9Input).entries ∧
      (create_extension_package wInput).fileCount =
        (create_extension_package c9Input).fileCount :=
  c9_selection_deterministic wInput c9Input rfl rfl rfl rfl

/-- Claim C10 (confirmed): the inclusion decision is made solely by
`is_essential` — every run's entry list is exactly the `is_essential`
filter of the walked files (or empty when the run fails early), and
`should_exclude` is never consulted; nor could it be, since any call to
it raises `NameError` on the unbound global `exclude_patterns`, so its
pattern-testing branch is unreachable in every execution. -/
theorem c10_should_exclude_unreachable :
    (∀ p : PyStr, should_exclude p =
        Except.error (PyErr.nameError "exclude_patterns".toList)) ∧
      (∀ inp : RunInput,
        (create_extension_package inp).entries = includedEntries inp ∨
          (create_extension_package inp).entries = []) := by
  constructor
  · intro p
    rfl
  · intro inp
    cases hd : inp.buildDirExists with
    | false =>
      refine Or.inr ?_
      have e1 : create_extension_package inp = failResult := by
        rw [create_extension_package, hd]; simp
      rw [e1]
      rfl
    | true =>
      cases hma : inp.manifestFile with
      | none =>
        refine Or.inr ?_
        have e1 : create_extension_package inp = failResult := by
          rw [create_extension_package, hd, hma]; simp
        rw [e1]
        rfl
      | some ex =>
        cases ex with
        | error e =>
          refine Or.inr ?_
          have e1 : create_extension_package inp = failResult := by
            rw [create_extension_package, hd, hma]; simp
          rw [e1]
          rfl
        | ok m => exact Or.inl (entries_run inp m hd hma)
